import Mathlib

/-!
Verification of the core algorithms of the Kinetic-Soundscapes generative
instrument.  The definitions below are a shallow embedding of the
TypeScript sources: the Euclidean rhythm gate and Lorenz oscillator from
`src/utils/math.ts`, the scale/frequency mapper from the music utility
module, the tempo-tap handler, chaos loop and configuration sanitizer from
the application shell, the voice/polyphony bookkeeping of the
`AudioEngine`, and the physics tick (`updatePhysics` / `handleImpact`)
from `src/components/Canvas.tsx`.  JavaScript numbers are modelled as real
numbers (rationals where the code only ever manipulates decimal literals
and integers); `Math.random()` draws are explicit oracle inputs;
JavaScript truthiness tests on numbers are modelled as explicit
comparisons with `0`.
-/

namespace KineticSoundscapes

/-! ## Rhythm gate (src/utils/math.ts, checkEuclideanStep) -/

/-- Embedding of `checkEuclideanStep(step, hits, totalSteps)`:
`if (totalSteps === 0) return false; return (step * hits) % totalSteps < hits;`. -/
def checkEuclideanStep (step hits totalSteps : ℕ) : Bool :=
  if totalSteps = 0 then false
  else decide ((step * hits) % totalSteps < hits)

/-! ## Tempo tap (application shell, handleTap) -/

/-- State behind the tempo-tap handler: the retained tap timestamps
(`tapTimesRef`) and the current BPM estimate. -/
structure TapState where
  tapTimes : List ℤ
  bpm : ℤ
deriving DecidableEq

/-- `Math.round`: round half away from zero is `Math.round(x) = ⌊x + 1/2⌋`
for the nonnegative values that occur here (JavaScript rounds half toward
positive infinity, which is `⌊x + 1/2⌋` for every `x`). -/
def jsRound (q : ℚ) : ℤ := ⌊q + 1 / 2⌋

/-- The loop `for (i = 1; i < t.length; i++) sum += t[i] - t[i-1]`. -/
def tapIntervalsSum : List ℤ → ℤ
  | a :: b :: rest => (b - a) + tapIntervalsSum (b :: rest)
  | _ => 0

/-- Mean inter-tap interval of a tap list, as the spec phrases the BPM
computation: the summed consecutive intervals divided by their count. -/
def meanInterval (l : List ℤ) : ℚ :=
  (tapIntervalsSum l : ℚ) / ((l.length : ℚ) - 1)

/-- The tap list retained by `handleTap` after the truthiness-guarded
reset (`if (lastTap && now - lastTap > 2000) tapTimes = []`), the push of
`now`, and the `if (length > 4) shift()` trim. -/
def retainedTaps (now : ℤ) (times : List ℤ) : List ℤ :=
  let cleared :=
    match times.getLast? with
    | some t => if t ≠ 0 ∧ now - t > 2000 then ([] : List ℤ) else times
    | none => times
  let pushed := cleared ++ [now]
  if pushed.length > 4 then pushed.tail else pushed

/-- Embedding of `handleTap` from the application shell: maintain the tap
history, and when at least two taps are retained set
`bpm = clamp(Math.round(60000 / avgInterval), 40, 240)`. -/
def handleTap (now : ℤ) (s : TapState) : TapState :=
  let kept := retainedTaps now s.tapTimes
  if kept.length > 1 then
    let avgInterval : ℚ := (tapIntervalsSum kept : ℚ) / ((kept.length : ℚ) - 1)
    let newBpm := jsRound (60000 / avgInterval)
    { tapTimes := kept, bpm := max 40 (min 240 newBpm) }
  else
    { tapTimes := kept, bpm := s.bpm }

/-! ## Instrument configurations and the sound library
(types module, sound library module, application shell `sanitizeConfigs`) -/

inductive SourceType
  | synth
  | sampler
  | physical
  | granular
deriving DecidableEq

inductive Waveform
  | sine
  | square
  | sawtooth
  | triangle
deriving DecidableEq

inductive FilterType
  | lowpass
  | highpass
  | bandpass
deriving DecidableEq

inductive DrumType
  | d808
  | d909
  | glitch
deriving DecidableEq

/-- The fields of `InstrumentConfig` that the verified operations read.
Optional TypeScript fields are `Option`s; `sampleBuffer` is modelled by
whether a buffer is present. -/
structure Instrument where
  sourceType : Option SourceType
  sampleBuffer : Bool
  soundId : Option String
  waveform : Waveform
  baseOctave : ℤ
  timbre : Option ℚ
  time : Option ℚ
  color : Option ℚ
  drive : Option ℚ
  chaos : Option ℚ
  probability : Option ℚ
  tension : Option ℚ
  attack : ℚ
  decay : ℚ
  sustain : ℚ
  release : ℚ
  vol : ℚ
  pan : ℚ
  filterType : Option FilterType
  filterFreq : Option ℚ
  filterQ : Option ℚ
deriving DecidableEq

/-- A sound-library entry (id, theme color and instrument definition). -/
structure SoundPatch where
  id : String
  themeColor : String
  config : Instrument
deriving DecidableEq

/-- The ids of the patches of `SOUND_LIBRARY`, in library order. -/
def soundLibraryIds : List String :=
  ["ana_bass", "ana_brass", "ana_lead", "acd_sq", "acd_tox",
   "org_scrap", "org_wood", "org_hydro", "chd_dub", "chd_rave",
   "voc_choir", "voc_robot", "cin_braam", "cin_swarm", "nse_static",
   "nse_geiger", "ret_jump", "dig_bell", "dig_keys", "dig_rot",
   "dig_err", "dig_chime", "dig_glitch", "grn_cloud", "grn_time",
   "atm_nebula", "atm_deep", "prc_kick", "prc_click", "prc_wood"]

/-- `SOUND_LIBRARY[0]`: the `'ana_bass'` ("Moog Sub") patch, i.e. the
`createPatch` defaults overridden by the entry's own fields. -/
def safePatch : SoundPatch :=
  { id := "ana_bass"
    themeColor := "#e11d48"
    config :=
      { sourceType := some SourceType.synth
        sampleBuffer := false
        soundId := none
        waveform := Waveform.sawtooth
        baseOctave := 2
        timbre := some (6 / 10)
        time := some (5 / 10)
        color := some (3 / 10)
        drive := some 0
        chaos := none
        probability := some 1
        tension := none
        attack := 2 / 100
        decay := 3 / 10
        sustain := 8 / 10
        release := 4 / 10
        vol := 12 / 10
        pan := 0
        filterType := some FilterType.lowpass
        filterFreq := some 400
        filterQ := some 1 } }

/-- `SOUND_LIBRARY.some(p => p.id === cfg.instrument.soundId)`: an
undefined `soundId` matches no patch. -/
def isValidSoundId : Option String → Bool
  | some s => soundLibraryIds.contains s
  | none => false

/-- The per-simulation configuration fields read by the verified
operations (`sanitizeConfigs` and the physics tick). -/
structure FlockConfig where
  enabled : Bool
  boidCount : ℕ
  perceptionRadius : ℝ
  maxForce : ℝ
  maxSpeed : ℝ
  separationWeight : ℝ
  alignmentWeight : ℝ
  cohesionWeight : ℝ
  euclideanHits : ℕ
  euclideanSteps : ℕ

inductive ShapeType
  | triangle
  | square
  | pentagon
  | hexagon
  | octagon
  | star
deriving DecidableEq

structure SimulationConfig where
  id : ℤ
  themeColor : String
  shapeType : ShapeType
  vertexCount : ℕ
  gravity : ℝ
  friction : ℝ
  restitution : ℝ
  rotationSpeed : ℝ
  ballCount : ℕ
  ballSize : ℝ
  initialSpeed : ℝ
  instrument : Instrument
  flock : FlockConfig

/-- The body of the `configs.map(cfg => …)` lambda of `sanitizeConfigs`:
sampler and granular sources pass through; a configuration whose
`soundId` is unknown, or a physical model with `tension > 0.95`, is
replaced by the first library patch, keeping the original `timbre`,
`time` and `probability` (defaulted to 0.5, 0.5 and 1.0 when absent) and
taking the patch's id and theme color. -/
def sanitizeConfig (cfg : SimulationConfig) : SimulationConfig :=
  if cfg.instrument.sourceType = some SourceType.sampler ∨
     cfg.instrument.sourceType = some SourceType.granular then
    cfg
  else
    let isValidId := isValidSoundId cfg.instrument.soundId
    let isUnsafePhysical :=
      cfg.instrument.sourceType = some SourceType.physical ∧
        (cfg.instrument.tension.getD 0) > 95 / 100
    if ¬(isValidId = true) ∨ isUnsafePhysical then
      { cfg with
        themeColor := safePatch.themeColor
        instrument :=
          { safePatch.config with
            soundId := some safePatch.id
            timbre := some (cfg.instrument.timbre.getD (5 / 10))
            time := some (cfg.instrument.time.getD (5 / 10))
            probability := some (cfg.instrument.probability.getD 1) } }
    else cfg

/-- Embedding of `sanitizeConfigs`: the element-wise sanitizer mapped
over the configuration list. -/
def sanitizeConfigs (configs : List SimulationConfig) : List SimulationConfig :=
  configs.map sanitizeConfig

/-! ## Musical scales and frequencies (music utility module) -/

inductive RootKey
  | C
  | Cs
  | D
  | Ds
  | E
  | F
  | Fs
  | G
  | Gs
  | A
  | As
  | B
deriving DecidableEq

/-- `NOTES.indexOf(root)` for the twelve valid root keys. -/
def noteIndex : RootKey → ℤ
  | RootKey.C => 0
  | RootKey.Cs => 1
  | RootKey.D => 2
  | RootKey.Ds => 3
  | RootKey.E => 4
  | RootKey.F => 5
  | RootKey.Fs => 6
  | RootKey.G => 7
  | RootKey.Gs => 8
  | RootKey.A => 9
  | RootKey.As => 10
  | RootKey.B => 11

inductive MusicalScale
  | chromatic
  | major
  | minor
  | pentatonic
  | dorian
  | lydian
  | phrygian
  | harmonics
deriving DecidableEq

/-- The `SCALES` interval tables; the harmonics scale has an empty table
and is special-cased in `getFrequencyFromScale`. -/
def scaleIntervals : MusicalScale → List ℤ
  | MusicalScale.chromatic => [0, 1, 2, 3, 4, 5, 6, 7, 8, 9, 10, 11]
  | MusicalScale.major => [0, 2, 4, 5, 7, 9, 11]
  | MusicalScale.minor => [0, 2, 3, 5, 7, 8, 10]
  | MusicalScale.pentatonic => [0, 3, 5, 7, 10]
  | MusicalScale.dorian => [0, 2, 3, 5, 7, 9, 10]
  | MusicalScale.lydian => [0, 2, 4, 6, 7, 9, 11]
  | MusicalScale.phrygian => [0, 1, 3, 5, 7, 8, 10]
  | MusicalScale.harmonics => []

/-- `getFrequency(noteIndex, baseOctave) = 440 * 2^((midi - 69)/12)` with
`midi = (baseOctave + 1) * 12 + noteIndex`. -/
noncomputable def getFrequency (noteIdx baseOctave : ℤ) : ℝ :=
  440 * (2 : ℝ) ^ ((((baseOctave + 1) * 12 + noteIdx - 69 : ℤ) : ℝ) / 12)

/-- Embedding of `getFrequencyFromScale`.  `Math.floor` of the real
quotient is `⌊·⌋`, the JavaScript `%` on integers is `Int.tmod`
(remainder with the dividend's sign), and the `Math.random()` draw used
by the analog-drift branch is the explicit `rand` input. -/
noncomputable def getFrequencyFromScale (root : RootKey) (scale : MusicalScale)
    (baseOctave scaleDegree : ℤ) (drift rand : ℝ) : ℝ :=
  let rootIndex := noteIndex root
  let rootFreq := getFrequency rootIndex baseOctave
  let targetFreq :=
    if scale = MusicalScale.harmonics then
      rootFreq * ((scaleDegree.natAbs + 1 : ℕ) : ℝ)
    else
      let intervals := scaleIntervals scale
      let len : ℤ := intervals.length
      let octaveOffset : ℤ := ⌊(scaleDegree : ℚ) / (len : ℚ)⌋
      let intervalIndex : ℤ := Int.tmod scaleDegree len
      let safeIntervalIndex : ℤ :=
        if intervalIndex < 0 then len + intervalIndex else intervalIndex
      let semitonesFromRoot := intervals.getD safeIntervalIndex.toNat 0
      let rootMidi := (baseOctave + 1) * 12 + rootIndex
      let targetMidi := rootMidi + octaveOffset * 12 + semitonesFromRoot
      440 * (2 : ℝ) ^ (((targetMidi - 69 : ℤ) : ℝ) / 12)
  if drift > 0 then
    targetFreq * (2 : ℝ) ^ ((rand - 1 / 2) * 2 * (drift * 100) / 1200)
  else targetFreq

/-! ## 2D vector math (src/utils/math.ts) -/

structure Vec where
  x : ℝ
  y : ℝ

namespace Vec

noncomputable def add (v1 v2 : Vec) : Vec := ⟨v1.x + v2.x, v1.y + v2.y⟩

noncomputable def sub (v1 v2 : Vec) : Vec := ⟨v1.x - v2.x, v1.y - v2.y⟩

noncomputable def mult (v : Vec) (s : ℝ) : Vec := ⟨v.x * s, v.y * s⟩

noncomputable def dot (v1 v2 : Vec) : ℝ := v1.x * v2.x + v1.y * v2.y

noncomputable def mag (v : Vec) : ℝ := Real.sqrt (v.x * v.x + v.y * v.y)

noncomputable def normalize (v : Vec) : Vec :=
  if mag v = 0 then ⟨0, 0⟩ else ⟨v.x / mag v, v.y / mag v⟩

open Classical in
noncomputable def limitVector (v : Vec) (limit : ℝ) : Vec :=
  if mag v > limit ∧ mag v > 0 then mult v (limit / mag v) else v

end Vec

/-- `generatePolygon(sides, radius, center, rotation)`. -/
noncomputable def generatePolygon (sides : ℕ) (radius : ℝ) (center : Vec)
    (rot : ℝ) : List Vec :=
  (List.range sides).map fun i =>
    let angle := ((i : ℝ) * 2 * Real.pi) / (sides : ℝ) + rot
    ⟨center.x + radius * Real.cos angle, center.y + radius * Real.sin angle⟩

/-- `generateStar(points, outerRadius, innerRadius, center, rotation)`. -/
noncomputable def generateStar (points : ℕ) (outerRadius innerRadius : ℝ)
    (center : Vec) (rot : ℝ) : List Vec :=
  (List.range (points * 2)).map fun i =>
    let angle := ((i : ℝ) * Real.pi) / (points : ℝ) + rot
    let radius := if i % 2 = 0 then outerRadius else innerRadius
    ⟨center.x + radius * Real.cos angle, center.y + radius * Real.sin angle⟩

/-- JavaScript number truncation (`Math.trunc`, the rounding used by the
`%` operator on numbers). -/
noncomputable def jsTrunc (x : ℝ) : ℤ := if 0 ≤ x then ⌊x⌋ else ⌈x⌉

/-- The JavaScript `%` operator on real operands. -/
noncomputable def jsFmod (a b : ℝ) : ℝ := a - b * (jsTrunc (a / b) : ℝ)

/-! ## Chaos source (src/utils/math.ts, LorenzAttractor) -/

/-- The three state components of the `LorenzAttractor` class; the
parameters `dt = 0.005`, `sigma = 10`, `rho = 28`, `beta = 8/3` are the
class defaults and are never reassigned. -/
structure LorenzState where
  x : ℝ
  y : ℝ
  z : ℝ

/-- `LorenzAttractor.update()`: one Euler step of the Lorenz system; the
three derivatives are computed from the pre-update state. -/
noncomputable def lorenzUpdate (s : LorenzState) : LorenzState :=
  let dx := 10 * (s.y - s.x)
  let dy := s.x * (28 - s.z) - s.y
  let dz := s.x * s.y - (8 / 3) * s.z
  { x := s.x + dx * 0.005, y := s.y + dy * 0.005, z := s.z + dz * 0.005 }

/-! ## AudioEngine voice bookkeeping (AudioEngine module) -/

/-- The polyphony ceiling `MAX_POLYPHONY = 64`. -/
def MAX_POLYPHONY : ℤ := 64

/-- The `AudioEngine` state touched by the verified operations: the live
voice counter, the master filter's frequency target, the delay feedback
gain, the master playback speed and the BPM. -/
structure AudioState where
  activeVoices : ℤ
  masterFilterFreq : ℝ
  delayFeedbackGain : ℝ
  masterSpeed : ℝ
  bpm : ℝ

namespace AudioEngine

/-- `triggerDrum`: dropped at the polyphony ceiling, otherwise allocates
one voice (either drum branch increments `activeVoices` once and
schedules its own decrement for envelope completion). -/
def triggerDrum (_type : DrumType) (_velocity _pan : ℝ) (s : AudioState) : AudioState :=
  if MAX_POLYPHONY ≤ s.activeVoices then s
  else { s with activeVoices := s.activeVoices + 1 }

/-- `triggerGranular`: guarded on a sample buffer, allocates one voice
(the counter is incremented once and decremented when the last grain
ends). -/
def triggerGranular (config : Instrument) (s : AudioState) : AudioState :=
  if ¬config.sampleBuffer then s
  else { s with activeVoices := s.activeVoices + 1 }

/-- `triggerSample`: guarded on a sample buffer, allocates one voice. -/
def triggerSample (config : Instrument) (s : AudioState) : AudioState :=
  if ¬config.sampleBuffer then s
  else { s with activeVoices := s.activeVoices + 1 }

/-- `triggerPhysical` is an explicit no-op (`{ return; }`). -/
def triggerPhysical (_config : Instrument) (s : AudioState) : AudioState := s

/-- `triggerSynth` allocates one voice. -/
def triggerSynth (_config : Instrument) (s : AudioState) : AudioState :=
  { s with activeVoices := s.activeVoices + 1 }

/-- `trigger(config, frequency, velocity, spatialPos)`: returns
immediately once `activeVoices >= MAX_POLYPHONY`, otherwise dispatches on
the source type exactly as the code does. The frequency, velocity and
spatial position parametrize only the synthesized nodes, not the engine
state modelled here. -/
def trigger (config : Instrument) (_frequency _velocity : ℝ) (_spatialPos : Vec)
    (s : AudioState) : AudioState :=
  if MAX_POLYPHONY ≤ s.activeVoices then s
  else if config.sourceType = some SourceType.granular ∧ config.sampleBuffer then
    triggerGranular config s
  else if config.sourceType = some SourceType.physical then
    triggerPhysical config s
  else if config.sourceType = some SourceType.sampler ∧ config.sampleBuffer then
    triggerSample config s
  else
    triggerSynth config s

end AudioEngine

/-- One externally observable voice operation on the engine: a pitched
trigger or a drum trigger. -/
inductive VoiceOp
  | trig (config : Instrument) (frequency velocity : ℝ) (spatialPos : Vec)
  | drum (t : DrumType) (velocity pan : ℝ)

/-- Apply one voice operation to the engine state. -/
def applyVoiceOp (op : VoiceOp) (s : AudioState) : AudioState :=
  match op with
  | VoiceOp.trig config frequency velocity spatialPos =>
    AudioEngine.trigger config frequency velocity spatialPos s
  | VoiceOp.drum t velocity pan => AudioEngine.triggerDrum t velocity pan s

/-- Run a sequence of voice operations. -/
def runVoiceOps (ops : List VoiceOp) (s : AudioState) : AudioState :=
  ops.foldl (fun s op => applyVoiceOp op s) s

/-- `setGlobalFilter(value)`: maps the control value logarithmically
between 40 Hz and 20 kHz and retunes the master filter's frequency target
(the `setTargetAtTime` destination), clamped to `[20, 22000]`. -/
noncomputable def AudioEngine.setGlobalFilter (value : ℝ) (s : AudioState) : AudioState :=
  let minFreq := Real.log 40
  let maxFreq := Real.log 20000
  let freq := Real.exp (minFreq + value * (maxFreq - minFreq))
  { s with masterFilterFreq := max 20 (min 22000 freq) }

/-- `setGlobalDelayFeedback(value)` has an empty body in the engine: it
changes nothing. -/
def AudioEngine.setGlobalDelayFeedback (_value : ℝ) (s : AudioState) : AudioState := s

/-- One iteration of the application shell's `updateChaos` loop: when
chaos mode is enabled (and the engine was started), advance the Lorenz
state and feed the normalized `x` to `setGlobalFilter` and the normalized
`y` to `setGlobalDelayFeedback`. -/
noncomputable def updateChaos (chaosEnabled started : Bool) (chaos : LorenzState)
    (s : AudioState) : LorenzState × AudioState :=
  if chaosEnabled = true ∧ started = true then
    let c := lorenzUpdate chaos
    let normX := max 0.1 (min 1.0 ((c.x + 20) / 40))
    let s1 := AudioEngine.setGlobalFilter normX s
    let normY := max 0.1 (min 0.8 ((c.y + 30) / 60))
    let s2 := AudioEngine.setGlobalDelayFeedback normY s1
    (c, s2)
  else (chaos, s)

/-! ## The physics tick (src/components/Canvas.tsx) -/

/-- The `GlobalSettings` fields read by the physics tick and trigger
dispatch. -/
structure Settings where
  timeScale : ℝ
  gravityMultiplier : ℝ
  rotationMultiplier : ℝ
  rootKey : RootKey
  scale : MusicalScale
  isPlaying : Bool
  attractMode : Bool
  bpm : ℝ
  gravityLfoEnabled : Bool
  gravityLfoRate : ℝ
  analogDrift : ℝ
  chaosEnabled : Bool

/-- A decaying visual mark (the `Impact` record of the canvas). -/
structure Impact where
  pos : Vec
  life : ℝ
  radius : ℝ
  isGhost : Bool

/-- A simulated ball. -/
structure Ball where
  pos : Vec
  vel : Vec
  radius : ℝ
  lastImpactTime : Option ℝ
  trail : List Vec

/-- A flock unit. -/
structure Boid where
  pos : Vec
  vel : Vec
  acc : Vec

inductive ImpactKind
  | ball
  | boid
deriving DecidableEq

/-- The `Math.random()` draws consumed when one impact event is
dispatched: the probability-gate sample, the scale-degree jump draw and
the analog-drift draw. -/
structure ImpactEnv where
  probRand : ℝ
  degreeRand : ℝ
  driftRand : ℝ

/-- The `Math.random()` draws consumed by one ball's update: the two
trail-jitter draws, the two chaos-turbulence draws, and one impact
environment per boundary edge. -/
structure BallEnv where
  jitterRand : ℝ × ℝ
  chaosRand : ℝ × ℝ
  impactEnv : ℕ → ImpactEnv

/-- The `Math.random()` draws consumed by one flock unit's update: one
proximity draw per ball, the boundary draw, and the impact environment of
a boundary impact. -/
structure BoidEnv where
  proximityRand : ℕ → ℝ
  boundaryRand : ℝ
  impactEnv : ImpactEnv

/-- The ambient inputs of one tick: the two clocks and the random draws
of every entity. -/
structure TickEnv where
  dateNow : ℝ
  perfNow : ℝ
  ballEnv : ℕ → BallEnv
  boidEnv : ℕ → BoidEnv

/-- Everything the tick mutates: the canvas refs (`impactsRef`,
`pulseRef`, `glitchRef`, `flockStepRef`), the simulation state ref and
the audio engine. -/
structure World where
  impacts : List Impact
  pulse : ℝ
  glitch : ℝ
  flockStep : ℕ
  balls : List Ball
  boids : List Boid
  rotation : ℝ
  mousePos : Option Vec
  isMouseDown : Bool
  startTime : ℝ
  currentGravity : ℝ
  audio : AudioState

open Classical

/-- Embedding of `handleImpact`: push a (possibly ghost) visual mark,
then — unless the probability gate suppressed the event — bump the pulse
for ball impacts and, while playing at nonzero volume, either step the
Euclidean gate and fire a glitch drum (flock impacts) or resolve a
frequency and trigger the instrument (ball impacts). -/
noncomputable def handleImpact (conf : SimulationConfig) (settings : Settings)
    (volume : ℝ) (env : ImpactEnv) (pos : Vec) (speed : ℝ) (wallIndex : ℕ)
    (width height : ℝ) (kind : ImpactKind) (w : World) : World :=
  let prob : ℝ := ((conf.instrument.probability.getD 1 : ℚ) : ℝ)
  let shouldPlay := env.probRand ≤ prob
  let mark : Impact :=
    { pos := pos
      life := 1
      radius := if kind = ImpactKind.ball then 5 + speed * 1.5 else 3
      isGhost := if shouldPlay then false else true }
  let w1 := { w with impacts := w.impacts ++ [mark] }
  if ¬shouldPlay then w1
  else
    let w2 :=
      if kind = ImpactKind.ball then { w1 with pulse := min (w1.pulse + 0.4) 1.2 }
      else w1
    if settings.isPlaying = true ∧ 0 < volume then
      if kind = ImpactKind.boid then
        let steps := if conf.flock.euclideanSteps = 0 then 16 else conf.flock.euclideanSteps
        let hits := if conf.flock.euclideanHits = 0 then 4 else conf.flock.euclideanHits
        let newStep := (w2.flockStep + 1) % steps
        let w3 := { w2 with flockStep := newStep }
        if checkEuclideanStep newStep hits steps then
          let shapeRadius := min width height * 0.42
          { w3 with
            audio := AudioEngine.triggerDrum DrumType.glitch (volume * 0.7)
              (max (-1) (min 1 (pos.x / shapeRadius))) w3.audio }
        else w3
      else
        let scaleDegree : ℤ := (wallIndex : ℤ) * 2 + (if env.degreeRand > 0.96 then 7 else 0)
        let freq := getFrequencyFromScale settings.rootKey settings.scale
          conf.instrument.baseOctave scaleDegree settings.analogDrift env.driftRand
        let velocity := min (max (speed / 6) 0.2) 1.2 * volume
        let shapeRadius := min width height * 0.42
        { w2 with
          audio := AudioEngine.trigger conf.instrument freq velocity
            ⟨max (-1) (min 1 (pos.x / shapeRadius)), max (-1) (min 1 (pos.y / shapeRadius))⟩
            w2.audio }
    else w2

/-- One iteration of the wall-collision loop body (`updatePhysics`,
collision against the edge from `p1` to `p2` with index `i`): if the
signed distance from the ball center to the edge normal is below the
radius, push the ball out along the normal; if additionally the ball was
moving into the wall, fire a (debounced) impact and reflect the velocity
scaled by the restitution. -/
noncomputable def collideBallEdge (conf : SimulationConfig) (settings : Settings)
    (volume width height perfNow : ℝ) (ienv : ImpactEnv) (p1 p2 : Vec) (i : ℕ)
    (b : Ball) (w : World) : Ball × World :=
  let edge := Vec.sub p2 p1
  let normal := Vec.normalize ⟨-edge.y, edge.x⟩
  let relPos := Vec.sub b.pos p1
  let dist := Vec.dot relPos normal
  if dist < b.radius then
    let b1 := { b with pos := Vec.add b.pos (Vec.mult normal (b.radius - dist)) }
    let vDotN := Vec.dot b1.vel normal
    if vDotN < 0 then
      let debounceOpen :=
        match b1.lastImpactTime with
        | none => True
        | some t => t = 0 ∨ perfNow - t > 80
      let fired :=
        if debounceOpen then
          (handleImpact conf settings volume ienv
            (Vec.add b1.pos (Vec.mult normal (-b1.radius))) (Vec.mag b1.vel) i
            width height ImpactKind.ball w,
           { b1 with lastImpactTime := some perfNow })
        else (w, b1)
      let reflect := Vec.mult normal (2 * vDotN)
      ({ fired.2 with vel := Vec.mult (Vec.sub fired.2.vel reflect) conf.restitution },
       fired.1)
    else (b1, w)
  else (b, w)

/-- One ball's update in `updatePhysics`: trail jitter, gravity, chaos
turbulence, pointer force, friction, integration, then the wall-collision
loop over every boundary edge. -/
noncomputable def updateBall (conf : SimulationConfig) (settings : Settings)
    (volume width height perfNow effectiveGravity : ℝ) (benv : BallEnv)
    (vertices : List Vec) (mousePos : Option Vec) (isMouseDown : Bool)
    (b : Ball) (w : World) : Ball × World :=
  let jitter : Vec := ⟨(benv.jitterRand.1 - 0.5) * 2, (benv.jitterRand.2 - 0.5) * 2⟩
  let trail0 := b.trail ++ [Vec.add b.pos jitter]
  let trail := if trail0.length > 8 then trail0.tail else trail0
  let vel1 : Vec := ⟨b.vel.x, b.vel.y + effectiveGravity * settings.timeScale⟩
  let chaosAmt : ℚ := conf.instrument.chaos.getD 0
  let vel2 : Vec :=
    if 0 < chaosAmt then
      let chaosForce := (chaosAmt : ℝ) * 0.5 * settings.timeScale
      ⟨vel1.x + (benv.chaosRand.1 - 0.5) * chaosForce,
       vel1.y + (benv.chaosRand.2 - 0.5) * chaosForce⟩
    else vel1
  let vel3 : Vec :=
    match mousePos, isMouseDown with
    | some mp, true =>
      let dx := b.pos.x - mp.x
      let dy := b.pos.y - mp.y
      let dist := Real.sqrt (dx * dx + dy * dy)
      if dist < 300 ∧ dist > 1 then
        let force := (3000 / (dist + 5)) * settings.timeScale *
          (if settings.attractMode = true then -1 else 1)
        ⟨vel2.x + (dx / dist) * force * 0.15, vel2.y + (dy / dist) * force * 0.15⟩
      else vel2
    | _, _ => vel2
  let vel4 := Vec.mult vel3 (1 - conf.friction * settings.timeScale)
  let b0 : Ball :=
    { b with
      trail := trail
      vel := vel4
      pos := Vec.add b.pos (Vec.mult vel4 settings.timeScale) }
  (List.range vertices.length).foldl
    (fun (st : Ball × World) i =>
      let p1 := vertices.getD i ⟨0, 0⟩
      let p2 := vertices.getD ((i + 1) % vertices.length) ⟨0, 0⟩
      collideBallEdge conf settings volume width height perfNow (benv.impactEnv i)
        p1 p2 i st.1 st.2)
    (b0, w)

/-- One flock unit's update in `updatePhysics`, performed in place at
index `k` of the (partially updated) boid array: alignment, cohesion and
separation steering from neighbors within the perception radius, weak
centering, ball avoidance with probabilistic percussive triggers, speed
limiting, integration, and boundary reflection with a probabilistic
flock impact. -/
noncomputable def updateBoidAt (conf : SimulationConfig) (settings : Settings)
    (volume width height shapeRadius : ℝ) (benv : BoidEnv) (balls : List Ball)
    (k : ℕ) (cur : List Boid) (w : World) : List Boid × World :=
  match cur.get? k with
  | none => (cur, w)
  | some boid =>
    let p := conf.flock
    let scan :=
      (List.range cur.length).foldl
        (fun (acc : Vec × Vec × Vec × ℕ) j =>
          if j = k then acc
          else
            match cur.get? j with
            | none => acc
            | some other =>
              let d := Vec.mag (Vec.sub boid.pos other.pos)
              if d < p.perceptionRadius then
                (Vec.add acc.1 other.vel,
                 Vec.add acc.2.1 other.pos,
                 Vec.add acc.2.2.1 (Vec.mult (Vec.sub boid.pos other.pos) (1 / (d * d))),
                 acc.2.2.2 + 1)
              else acc)
        (⟨0, 0⟩, ⟨0, 0⟩, ⟨0, 0⟩, 0)
    let total := scan.2.2.2
    let steering :=
      if 0 < total then
        let align0 := Vec.mult scan.1 (1 / (total : ℝ))
        let align1 := Vec.limitVector
          (Vec.sub (Vec.mult (Vec.normalize align0) p.maxSpeed) boid.vel) p.maxForce
        let coh0 := Vec.sub (Vec.mult scan.2.1 (1 / (total : ℝ))) boid.pos
        let coh1 := Vec.limitVector
          (Vec.sub (Vec.mult (Vec.normalize coh0) p.maxSpeed) boid.vel) p.maxForce
        let sep0 := Vec.mult scan.2.2.1 (1 / (total : ℝ))
        let sep1 := Vec.limitVector
          (Vec.sub (Vec.mult (Vec.normalize sep0) p.maxSpeed) boid.vel) p.maxForce
        (align1, coh1, sep1)
      else (scan.1, scan.2.1, scan.2.2.1)
    let acc1 := Vec.add boid.acc (Vec.mult steering.1 p.alignmentWeight)
    let acc2 := Vec.add acc1 (Vec.mult steering.2.1 p.cohesionWeight)
    let acc3 := Vec.add acc2 (Vec.mult steering.2.2 p.separationWeight)
    let centerDir := Vec.sub ⟨0, 0⟩ boid.pos
    let acc4 := Vec.add acc3 (Vec.mult (Vec.normalize centerDir) 0.01)
    let avoid :=
      (List.range balls.length).foldl
        (fun (st : Vec × World) bi =>
          match balls.get? bi with
          | none => st
          | some ball =>
            let d := Vec.mag (Vec.sub boid.pos ball.pos)
            if d < ball.radius + 15 then
              let flee := Vec.normalize (Vec.sub boid.pos ball.pos)
              let a := Vec.add st.1 (Vec.mult flee 0.5)
              if benv.proximityRand bi > 0.95 ∧ settings.isPlaying = true then
                (a,
                 { st.2 with
                   audio := AudioEngine.triggerDrum DrumType.d808 (volume * 0.8)
                     (max (-1) (min 1 (boid.pos.x / shapeRadius))) st.2.audio
                   impacts := st.2.impacts ++
                     [{ pos := boid.pos, life := 0.5, radius := 2, isGhost := false }] })
              else (a, st.2)
            else st)
        (acc4, w)
    let vel1 := Vec.limitVector (Vec.add boid.vel avoid.1) p.maxSpeed
    let pos1 := Vec.add boid.pos (Vec.mult vel1 settings.timeScale)
    let distC := Vec.mag pos1
    let bounced :=
      if distC > shapeRadius then
        let normal := Vec.mult (Vec.normalize pos1) (-1)
        let v := Vec.add vel1 (Vec.mult normal 2)
        if benv.boundaryRand > 0.98 then
          (v, handleImpact conf settings volume benv.impactEnv pos1 (Vec.mag v) 0
            width height ImpactKind.boid avoid.2)
        else (v, avoid.2)
      else (vel1, avoid.2)
    (cur.set k { pos := pos1, vel := bounced.1, acc := ⟨0, 0⟩ }, bounced.2)

/-- The mark-decay pass at the top of `updatePhysics`: every mark's life
drops by 0.05 and marks whose life is then `≤ 0` are removed (the
backwards splice loop preserves the order of the survivors). -/
noncomputable def decayImpacts (l : List Impact) : List Impact :=
  (l.map fun i => { i with life := i.life - 0.05 }).filter fun i => decide (0 < i.life)

/-- Embedding of `updatePhysics(width, height)`: decay the visual marks,
stop if the time scale is zero, otherwise advance rotation, gravity LFO,
every ball (with wall collisions) and, when the flock is enabled, every
flock unit. -/
noncomputable def updatePhysics (env : TickEnv) (conf : SimulationConfig)
    (settings : Settings) (volume width height : ℝ) (w : World) : World :=
  let w0 := { w with impacts := decayImpacts w.impacts }
  if settings.timeScale = 0 then w0
  else
    let shapeRadius := min width height * 0.42
    let w1 :=
      { w0 with
        pulse := w0.pulse * 0.94
        glitch := if w0.glitch > 0.01 then w0.glitch * 0.92 else 0
        rotation := w0.rotation +
          conf.rotationSpeed * settings.rotationMultiplier * settings.timeScale }
    let effectiveGravity :=
      conf.gravity * settings.gravityMultiplier +
        (if settings.gravityLfoEnabled = true then
          let beatDur := 60000 / settings.bpm
          let period := beatDur * (1 / settings.gravityLfoRate)
          let phase := jsFmod (env.dateNow - w1.startTime) period / period
          Real.sin (phase * Real.pi * 2) * 0.35
        else 0)
    let w2 := { w1 with currentGravity := effectiveGravity }
    let vertices :=
      if conf.shapeType = ShapeType.star then
        generateStar (if conf.vertexCount = 0 then 5 else conf.vertexCount)
          shapeRadius (shapeRadius * 0.4) ⟨0, 0⟩ w2.rotation
      else
        generatePolygon (if conf.vertexCount = 0 then 4 else conf.vertexCount)
          shapeRadius ⟨0, 0⟩ w2.rotation
    let stepBalls :=
      (List.range w2.balls.length).foldl
        (fun (st : List Ball × World) bi =>
          match w2.balls.get? bi with
          | none => st
          | some b =>
            let r := updateBall conf settings volume width height env.perfNow
              effectiveGravity (env.ballEnv bi) vertices w2.mousePos w2.isMouseDown
              b st.2
            (st.1 ++ [r.1], r.2))
        (([] : List Ball), w2)
    let w4 := { stepBalls.2 with balls := stepBalls.1 }
    if conf.flock.enabled = true then
      let stepBoids :=
        (List.range w4.boids.length).foldl
          (fun (st : List Boid × World) k =>
            updateBoidAt conf settings volume width height shapeRadius
              (env.boidEnv k) w4.balls k st.1 st.2)
          (w4.boids, w4)
      { stepBoids.2 with boids := stepBoids.1 }
    else w4

/-! ## Concrete probe values used by witnesses and counterexamples -/

/-- A configuration with an over-tense physical model (tension 0.96):
rejected by the sanitizer. -/
noncomputable def tenseProbeConfig : SimulationConfig :=
  { id := 1
    themeColor := "#000000"
    shapeType := ShapeType.square
    vertexCount := 4
    gravity := 2 / 10
    friction := 1 / 100
    restitution := 9 / 10
    rotationSpeed := 1 / 100
    ballCount := 3
    ballSize := 10
    initialSpeed := 5
    instrument :=
      { sourceType := some SourceType.physical
        sampleBuffer := false
        soundId := some "ana_bass"
        waveform := Waveform.sine
        baseOctave := 4
        timbre := some (7 / 10)
        time := none
        color := some (1 / 2)
        drive := some 0
        chaos := none
        probability := some (3 / 10)
        tension := some (96 / 100)
        attack := 1 / 100
        decay := 1 / 5
        sustain := 3 / 10
        release := 1 / 2
        vol := 1
        pan := 0
        filterType := some FilterType.lowpass
        filterFreq := some 1000
        filterQ := none }
    flock :=
      { enabled := false
        boidCount := 0
        perceptionRadius := 50
        maxForce := 2 / 10
        maxSpeed := 4
        separationWeight := 3 / 2
        alignmentWeight := 1
        cohesionWeight := 1
        euclideanHits := 4
        euclideanSteps := 16 } }

/-- Global settings probe: playing, time scale 1, no LFO, no chaos. -/
noncomputable def probeSettings : Settings :=
  { timeScale := 1
    gravityMultiplier := 1
    rotationMultiplier := 1
    rootKey := RootKey.C
    scale := MusicalScale.major
    isPlaying := true
    attractMode := true
    bpm := 120
    gravityLfoEnabled := false
    gravityLfoRate := 1
    analogDrift := 0
    chaosEnabled := false }

/-- The probe settings with the time scale set to zero (paused). -/
noncomputable def pausedProbeSettings : Settings :=
  { probeSettings with timeScale := 0 }

/-- An idle audio engine probe. -/
noncomputable def probeAudio : AudioState :=
  { activeVoices := 0
    masterFilterFreq := 22000
    delayFeedbackGain := 4 / 10
    masterSpeed := 1
    bpm := 120 }

/-- An empty world probe with one decaying mark. -/
noncomputable def probeWorld : World :=
  { impacts := [{ pos := ⟨0, 0⟩, life := 1, radius := 5, isGhost := false }]
    pulse := 0
    glitch := 0
    flockStep := 0
    balls := []
    boids := []
    rotation := 0
    mousePos := none
    isMouseDown := false
    startTime := 0
    currentGravity := 0
    audio := probeAudio }

/-- A ball probe penetrating the left vertical edge. -/
noncomputable def probeBall : Ball :=
  { pos := ⟨-(1 / 2), 0⟩, vel := ⟨1, 0⟩, radius := 1, lastImpactTime := none, trail := [] }

/-- An impact-randomness probe whose probability-gate sample is 0. -/
noncomputable def probeImpactEnv : ImpactEnv :=
  { probRand := 0, degreeRand := 0, driftRand := 0 }

/-- A tick-randomness probe. -/
noncomputable def probeTickEnv : TickEnv :=
  { dateNow := 0
    perfNow := 0
    ballEnv := fun _ =>
      { jitterRand := (0, 0), chaosRand := (0, 0), impactEnv := fun _ => probeImpactEnv }
    boidEnv := fun _ =>
      { proximityRand := fun _ => 0, boundaryRand := 0, impactEnv := probeImpactEnv } }

/-- A synth configuration probe whose trigger probability is 0. -/
noncomputable def zeroProbProbeConfig : SimulationConfig :=
  { tenseProbeConfig with
    instrument :=
      { tenseProbeConfig.instrument with
        sourceType := some SourceType.synth
        probability := some 0
        tension := none } }

/-! ## Supporting lemmas -/

theorem euclid_cond_of_ne_zero (step hits totalSteps : ℕ) (h : totalSteps ≠ 0) :
    checkEuclideanStep step hits totalSteps = true ↔ (step * hits) % totalSteps < hits := by
  simp [checkEuclideanStep, h]

theorem euclid_div_jump (h T a : ℕ) (hh : 0 < h) (hT : h < T) :
    (a + h) / T = a / T + (if (a + h) % T < h then 1 else 0) ∧
      ((a + h) % T < h ↔ T ≤ a % T + h) := by
  have hT0 : 0 < T := lt_trans hh hT
  have hdiv : h / T = 0 := Nat.div_eq_of_lt hT
  have hmod : h % T = h := Nat.mod_eq_of_lt hT
  have haT : a % T < T := Nat.mod_lt _ hT0
  have hadd : (a + h) / T = a / T + h / T + if T ≤ a % T + h % T then 1 else 0 :=
    Nat.add_div hT0
  have hamod : (a + h) % T = (a % T + h % T) % T := by
    rw [Nat.add_mod]
  by_cases hc : T ≤ a % T + h
  · have hm : (a + h) % T = a % T + h - T := by
      rw [hamod, hmod, Nat.mod_eq_sub_mod hc, Nat.mod_eq_of_lt (by omega)]
    constructor
    · rw [hadd, hdiv, hmod, if_pos hc, if_pos (by omega)]
    · rw [hm]
      omega
  · have hm : (a + h) % T = a % T + h := by
      rw [hamod, hmod, Nat.mod_eq_of_lt (by omega)]
    constructor
    · rw [hadd, hdiv, hmod, if_neg hc, if_neg (by omega)]
    · rw [hm]
      omega

theorem euclid_count_aux (h T : ℕ) (hh : 0 < h) (hT : h < T) :
    ∀ n, n ≤ T → 0 < n →
      ((Finset.range n).filter (fun s => (s * h) % T < h)).card = ((n - 1) * h) / T + 1 := by
  intro n
  induction n with
  | zero => omega
  | succ m ih =>
    intro hle _
    rcases Nat.eq_zero_or_pos m with hm | hm
    · subst hm
      simp [Finset.range_one, Finset.filter_singleton, Nat.zero_mod, hh]
    · have hcard :
          ((Finset.range (m + 1)).filter (fun s => (s * h) % T < h)).card =
            ((Finset.range m).filter (fun s => (s * h) % T < h)).card +
              (if (m * h) % T < h then 1 else 0) := by
        rw [Finset.range_succ, Finset.filter_insert]
        by_cases hc : (m * h) % T < h
        · rw [if_pos hc, Finset.card_insert_of_not_mem (by simp), if_pos hc]
        · rw [if_neg hc, if_neg hc, Nat.add_zero]
      have hmh : m * h = (m - 1) * h + h := by
        cases m with
        | zero => omega
        | succ k => simp [Nat.succ_mul]
      have hjump := euclid_div_jump h T ((m - 1) * h) hh hT
      rw [hcard, ih (by omega) hm]
      rw [Nat.succ_sub_one, hmh, (hjump.1)]
      omega

/-! ## Claim theorems -/

/-- Claim C10: `checkEuclideanStep(step, hits, 0)` is `false` for every
step and hit count: the `totalSteps === 0` case is guarded before the
modulo, so the gate is total. -/
theorem rhythm_gate_zero_steps (step hits : ℕ) :
    checkEuclideanStep step hits 0 = false := rfl

/-- Claim C3: for `0 < hits ≤ totalSteps`, exactly `hits` of the steps
`0, …, totalSteps - 1` satisfy `checkEuclideanStep`. -/
theorem rhythm_gate_exact_hits (hits totalSteps : ℕ) (h1 : 0 < hits)
    (h2 : hits ≤ totalSteps) :
    ((Finset.range totalSteps).filter
      (fun s => checkEuclideanStep s hits totalSteps = true)).card = hits := by
  have hT0 : totalSteps ≠ 0 := by omega
  have hfe :
      (Finset.range totalSteps).filter
          (fun s => checkEuclideanStep s hits totalSteps = true) =
        (Finset.range totalSteps).filter (fun s => (s * hits) % totalSteps < hits) := by
    apply Finset.filter_congr
    intro s _
    simp [euclid_cond_of_ne_zero s hits totalSteps hT0]
  rw [hfe]
  rcases eq_or_lt_of_le h2 with heq | hlt
  · subst heq
    have hall :
        (Finset.range hits).filter (fun s => (s * hits) % hits < hits) =
          Finset.range hits := by
      apply Finset.filter_true_of_mem
      intro s _
      simp [Nat.mul_mod_left]
      omega
    rw [hall, Finset.card_range]
  · have hmain := euclid_count_aux hits totalSteps h1 hlt totalSteps le_rfl (by omega)
    rw [hmain]
    have he : (totalSteps - 1) * hits = totalSteps * (hits - 1) + (totalSteps - hits) := by
      have h1T : 1 ≤ totalSteps := by omega
      have h1h : 1 ≤ hits := h1
      zify [h1T, h1h, h2]
      ring
    rw [he, Nat.mul_add_div (by omega), Nat.div_eq_of_lt (by omega)]
    omega

/-- Witness for C3 at `hits = 3`, `totalSteps = 8`. -/
theorem rhythm_gate_exact_hits_witness :
    0 < 3 ∧ 3 ≤ 8 ∧
      ((Finset.range 8).filter (fun s => checkEuclideanStep s 3 8 = true)).card = 3 :=
  ⟨by decide, by decide, rhythm_gate_exact_hits 3 8 (by decide) (by decide)⟩

theorem applyVoiceOp_bounds (op : VoiceOp) (s : AudioState)
    (h0 : 0 ≤ s.activeVoices) (h1 : s.activeVoices ≤ MAX_POLYPHONY) :
    0 ≤ (applyVoiceOp op s).activeVoices ∧
      (applyVoiceOp op s).activeVoices ≤ MAX_POLYPHONY := by
  cases op with
  | trig config frequency velocity spatialPos =>
    simp only [applyVoiceOp, AudioEngine.trigger, AudioEngine.triggerGranular,
      AudioEngine.triggerPhysical, AudioEngine.triggerSample, AudioEngine.triggerSynth,
      MAX_POLYPHONY] at *
    split_ifs <;> simp_all <;> omega
  | drum t velocity pan =>
    simp only [applyVoiceOp, AudioEngine.triggerDrum, MAX_POLYPHONY] at *
    split_ifs with h
    · exact ⟨h0, h1⟩
    · refine ⟨by simp; omega, by simp; omega⟩

/-- Claim C1: a trigger or drum trigger arriving when the live-voice
counter is at the polyphony ceiling leaves the engine state unchanged —
no voice is allocated, nothing is queued — and consequently every
sequence of `trigger`/`triggerDrum` calls keeps the counter in
`[0, MAX_POLYPHONY]`. -/
theorem polyphony_ceiling_invariant :
    (∀ (op : VoiceOp) (s : AudioState),
        s.activeVoices = MAX_POLYPHONY → applyVoiceOp op s = s) ∧
    (∀ (ops : List VoiceOp) (s : AudioState),
        0 ≤ s.activeVoices → s.activeVoices ≤ MAX_POLYPHONY →
        0 ≤ (runVoiceOps ops s).activeVoices ∧
          (runVoiceOps ops s).activeVoices ≤ MAX_POLYPHONY) := by
  constructor
  · intro op s h
    cases op with
    | trig config frequency velocity spatialPos =>
      simp [applyVoiceOp, AudioEngine.trigger, h]
    | drum t velocity pan =>
      simp [applyVoiceOp, AudioEngine.triggerDrum, h]
  · intro ops
    induction ops with
    | nil => intro s h0 h1; exact ⟨h0, h1⟩
    | cons op rest ih =>
      intro s h0 h1
      have hstep := applyVoiceOp_bounds op s h0 h1
      exact ih (applyVoiceOp op s) hstep.1 hstep.2

/-- Witness for C1: two drum triggers and a synth trigger from an idle
engine stay within the ceiling. -/
theorem polyphony_ceiling_invariant_witness :
    0 ≤ (⟨0, 22000, 4 / 10, 1, 120⟩ : AudioState).activeVoices ∧
    (⟨0, 22000, 4 / 10, 1, 120⟩ : AudioState).activeVoices ≤ MAX_POLYPHONY ∧
    (0 ≤ (runVoiceOps
        [VoiceOp.drum DrumType.glitch 1 0, VoiceOp.drum DrumType.d808 1 0,
         VoiceOp.trig safePatch.config 440 1 ⟨0, 0⟩]
        (⟨0, 22000, 4 / 10, 1, 120⟩ : AudioState)).activeVoices ∧
      (runVoiceOps
        [VoiceOp.drum DrumType.glitch 1 0, VoiceOp.drum DrumType.d808 1 0,
         VoiceOp.trig safePatch.config 440 1 ⟨0, 0⟩]
        (⟨0, 22000, 4 / 10, 1, 120⟩ : AudioState)).activeVoices ≤ MAX_POLYPHONY) :=
  ⟨by decide, by decide,
   polyphony_ceiling_invariant.2
     [VoiceOp.drum DrumType.glitch 1 0, VoiceOp.drum DrumType.d808 1 0,
      VoiceOp.trig safePatch.config 440 1 ⟨0, 0⟩]
     (⟨0, 22000, 4 / 10, 1, 120⟩ : AudioState) (by decide) (by decide)⟩

theorem retainedTaps_le_four (now : ℤ) (l : List ℤ) (h : l.length ≤ 4) :
    (retainedTaps now l).length ≤ 4 := by
  have haux : ∀ (c : List ℤ), c.length ≤ 4 →
      (if (c ++ [now]).length > 4 then (c ++ [now]).tail else c ++ [now]).length ≤ 4 := by
    intro c hc
    split_ifs with hlen
    · simp only [List.length_tail, List.length_append, List.length_singleton]
      omega
    · simp only [List.length_append, List.length_singleton] at *
      omega
  unfold retainedTaps
  have hclen : (match l.getLast? with
      | some t => if t ≠ 0 ∧ now - t > 2000 then ([] : List ℤ) else l
      | none => l).length ≤ 4 := by
    cases l.getLast? with
    | none => exact h
    | some t =>
      show (if t ≠ 0 ∧ now - t > 2000 then ([] : List ℤ) else l).length ≤ 4
      split_ifs
      · simp
      · exact h
  exact haux _ hclen

/-- Claim C8, counterexample: with the retained tap `0` and a new tap at
`2500` the gap exceeds 2000 ms, yet the handler does not reset (the JS
truthiness test `lastTap && …` rejects the timestamp `0`): the history
becomes `[0, 2500]` and the BPM drops to the clamp floor 40 instead of
staying at 120. -/
theorem tempo_tap_cex :
    (⟨[0], 120⟩ : TapState).tapTimes.getLast? = some 0 ∧
    (2500 : ℤ) - 0 > 2000 ∧
    (handleTap 2500 ⟨[0], 120⟩).tapTimes = [0, 2500] ∧
    (handleTap 2500 ⟨[0], 120⟩).bpm = 40 := by
  refine ⟨by simp, by norm_num, ?_, ?_⟩ <;>
    norm_num [handleTap, retainedTaps, tapIntervalsSum, jsRound, List.getLast?]

/-- Claim C8 (amended): the handler computes BPM as the clamp to
`[40, 240]` of `60000 /` the mean inter-tap interval over the retained
(up to four) taps; the history resets on a gap above 2000 ms provided the
previous tap's timestamp is nonzero (the code's truthiness test), in
which case the single retained tap changes no BPM; taps at 0, 500, 1000,
1500 ms yield BPM 120. -/
theorem tempo_tap_amended :
    (∀ (s : TapState) (now t : ℤ),
        s.tapTimes.getLast? = some t → t ≠ 0 → now - t > 2000 →
        (handleTap now s).tapTimes = [now] ∧ (handleTap now s).bpm = s.bpm) ∧
    (∀ (s : TapState) (now : ℤ),
        (handleTap now s).tapTimes = retainedTaps now s.tapTimes ∧
        ((retainedTaps now s.tapTimes).length > 1 →
          (handleTap now s).bpm =
            max 40 (min 240 (jsRound (60000 / meanInterval (retainedTaps now s.tapTimes))))) ∧
        (¬(retainedTaps now s.tapTimes).length > 1 → (handleTap now s).bpm = s.bpm) ∧
        (s.tapTimes.length ≤ 4 → (retainedTaps now s.tapTimes).length ≤ 4)) ∧
    (handleTap 1500 (handleTap 1000 (handleTap 500 (handleTap 0 ⟨[], 100⟩)))).bpm = 120 := by
  refine ⟨?_, ?_,
    by norm_num [handleTap, retainedTaps, tapIntervalsSum, jsRound, List.getLast?]⟩
  · intro s now t hl ht hgap
    have hk : retainedTaps now s.tapTimes = [now] := by
      simp [retainedTaps, hl, ht, hgap]
    have hlen : ¬(retainedTaps now s.tapTimes).length > 1 := by
      rw [hk]
      simp
    constructor
    · simp [handleTap, hlen, hk]
    · simp [handleTap, hlen]
  · intro s now
    refine ⟨?_, ?_, ?_, retainedTaps_le_four now s.tapTimes⟩
    · by_cases hlen : (retainedTaps now s.tapTimes).length > 1 <;>
        simp [handleTap, hlen]
    · intro hlen
      simp [handleTap, hlen, meanInterval]
    · intro hlen
      simp [handleTap, hlen]

/-- Witness for the amended C8: a reset at a nonzero previous tap. -/
theorem tempo_tap_amended_witness :
    (⟨[0, 500], 120⟩ : TapState).tapTimes.getLast? = some 500 ∧
    (500 : ℤ) ≠ 0 ∧ (9000 : ℤ) - 500 > 2000 ∧
    ((handleTap 9000 ⟨[0, 500], 120⟩).tapTimes = [9000] ∧
      (handleTap 9000 ⟨[0, 500], 120⟩).bpm = 120) :=
  ⟨by simp, by norm_num, by norm_num,
   tempo_tap_amended.1 ⟨[0, 500], 120⟩ 9000 500 (by simp) (by norm_num) (by norm_num)⟩

theorem sanitizeConfig_of_synth_anabass (c : SimulationConfig)
    (hs : c.instrument.sourceType = some SourceType.synth)
    (hid : c.instrument.soundId = some "ana_bass") :
    sanitizeConfig c = c := by
  have hvalid : isValidSoundId c.instrument.soundId = true := by
    rw [hid]
    decide
  have h1 : ¬(c.instrument.sourceType = some SourceType.sampler ∨
      c.instrument.sourceType = some SourceType.granular) := by
    rw [hs]
    simp
  have h2 : ¬(¬(isValidSoundId c.instrument.soundId = true) ∨
      (c.instrument.sourceType = some SourceType.physical ∧
        (c.instrument.tension.getD 0) > 95 / 100)) := by
    rw [hs, hvalid]
    simp
  simp only [sanitizeConfig]
  rw [if_neg h1, if_neg h2]

theorem sanitizeConfig_fix (cfg : SimulationConfig) :
    sanitizeConfig (sanitizeConfig cfg) = sanitizeConfig cfg := by
  by_cases h1 : cfg.instrument.sourceType = some SourceType.sampler ∨
      cfg.instrument.sourceType = some SourceType.granular
  · have h : sanitizeConfig cfg = cfg := by
      simp only [sanitizeConfig]
      rw [if_pos h1]
    rw [h, h]
  · by_cases h2 : ¬(isValidSoundId cfg.instrument.soundId = true) ∨
        (cfg.instrument.sourceType = some SourceType.physical ∧
          (cfg.instrument.tension.getD 0) > 95 / 100)
    · have hrepl : sanitizeConfig cfg =
          { cfg with
            themeColor := safePatch.themeColor
            instrument :=
              { safePatch.config with
                soundId := some safePatch.id
                timbre := some (cfg.instrument.timbre.getD (5 / 10))
                time := some (cfg.instrument.time.getD (5 / 10))
                probability := some (cfg.instrument.probability.getD 1) } } := by
        simp only [sanitizeConfig]
        rw [if_neg h1, if_pos h2]
      rw [hrepl]
      exact sanitizeConfig_of_synth_anabass _ rfl rfl
    · have h : sanitizeConfig cfg = cfg := by
        simp only [sanitizeConfig]
        rw [if_neg h1, if_neg h2]
      rw [h, h]

/-- Claim C9: the configuration sanitizer is idempotent, and a rejected
configuration (unknown sound id or over-tense physical model) is replaced
by the first library patch while the original timbre, time and
probability are preserved. -/
theorem sanitize_idempotent :
    (∀ (configs : List SimulationConfig),
        sanitizeConfigs (sanitizeConfigs configs) = sanitizeConfigs configs) ∧
    (∀ (cfg : SimulationConfig),
        ¬(cfg.instrument.sourceType = some SourceType.sampler ∨
          cfg.instrument.sourceType = some SourceType.granular) →
        (¬(isValidSoundId cfg.instrument.soundId = true) ∨
          (cfg.instrument.sourceType = some SourceType.physical ∧
            (cfg.instrument.tension.getD 0) > 95 / 100)) →
        (sanitizeConfig cfg).instrument.soundId = some safePatch.id ∧
        (sanitizeConfig cfg).instrument.sourceType = safePatch.config.sourceType ∧
        (sanitizeConfig cfg).themeColor = safePatch.themeColor ∧
        (sanitizeConfig cfg).instrument.timbre = some (cfg.instrument.timbre.getD (5 / 10)) ∧
        (sanitizeConfig cfg).instrument.time = some (cfg.instrument.time.getD (5 / 10)) ∧
        (sanitizeConfig cfg).instrument.probability =
          some (cfg.instrument.probability.getD 1)) := by
  constructor
  · intro configs
    induction configs with
    | nil => rfl
    | cons c t ih =>
      have ih2 := ih
      simp only [sanitizeConfigs, List.map_cons] at ih2 ⊢
      rw [sanitizeConfig_fix c, ih2]
  · intro cfg h1 h2
    have hrepl : sanitizeConfig cfg =
        { cfg with
          themeColor := safePatch.themeColor
          instrument :=
            { safePatch.config with
              soundId := some safePatch.id
              timbre := some (cfg.instrument.timbre.getD (5 / 10))
              time := some (cfg.instrument.time.getD (5 / 10))
              probability := some (cfg.instrument.probability.getD 1) } } := by
      simp only [sanitizeConfig]
      rw [if_neg h1, if_pos h2]
    rw [hrepl]
    exact ⟨rfl, rfl, rfl, rfl, rfl, rfl⟩

/-- Witness for C9: an over-tense physical model is replaced by the first
library patch, keeping its probability 0.3 and timbre 0.7. -/
theorem sanitize_idempotent_witness :
    (sanitizeConfig tenseProbeConfig).instrument.soundId = some safePatch.id ∧
    (sanitizeConfig tenseProbeConfig).instrument.sourceType = safePatch.config.sourceType ∧
    (sanitizeConfig tenseProbeConfig).themeColor = safePatch.themeColor ∧
    (sanitizeConfig tenseProbeConfig).instrument.timbre =
      some (tenseProbeConfig.instrument.timbre.getD (5 / 10)) ∧
    (sanitizeConfig tenseProbeConfig).instrument.time =
      some (tenseProbeConfig.instrument.time.getD (5 / 10)) ∧
    (sanitizeConfig tenseProbeConfig).instrument.probability =
      some (tenseProbeConfig.instrument.probability.getD 1) :=
  sanitize_idempotent.2 tenseProbeConfig
    (by simp [tenseProbeConfig])
    (Or.inr ⟨rfl, by norm_num [tenseProbeConfig]⟩)

/-- Claim C2: for every root key, non-harmonics scale, base octave and
nonnegative degree (with drift 0), stepping the degree by the scale's
length doubles the frequency; for the harmonics scale the frequency at
degree `n` is `(n + 1)` times the frequency at degree 0. -/
theorem scale_octave_equivalence :
    (∀ (root : RootKey) (scale : MusicalScale) (octave d : ℤ) (rand : ℝ),
        scale ≠ MusicalScale.harmonics → 0 ≤ d →
        getFrequencyFromScale root scale octave
            (d + ((scaleIntervals scale).length : ℤ)) 0 rand
          = 2 * getFrequencyFromScale root scale octave d 0 rand) ∧
    (∀ (root : RootKey) (octave n : ℤ) (rand : ℝ), 0 ≤ n →
        getFrequencyFromScale root MusicalScale.harmonics octave n 0 rand
          = ((n : ℝ) + 1) *
              getFrequencyFromScale root MusicalScale.harmonics octave 0 0 rand) := by
  constructor
  · intro root scale octave d rand hs hd
    have hLpos : 0 < (scaleIntervals scale).length := by
      cases scale
      case harmonics => exact absurd rfl hs
      all_goals decide
    have hLZ : (0 : ℤ) < ((scaleIntervals scale).length : ℤ) := by exact_mod_cast hLpos
    simp only [getFrequencyFromScale, gt_iff_lt, lt_self_iff_false, if_false]
    rw [if_neg hs, if_neg hs]
    have hfloor : ⌊((d + ((scaleIntervals scale).length : ℤ) : ℤ) : ℚ) /
        ((((scaleIntervals scale).length : ℤ)) : ℚ)⌋
        = ⌊(d : ℚ) / ((((scaleIntervals scale).length : ℤ)) : ℚ)⌋ + 1 := by
      have hq : ((d + ((scaleIntervals scale).length : ℤ) : ℤ) : ℚ) /
          ((((scaleIntervals scale).length : ℤ)) : ℚ)
          = (d : ℚ) / ((((scaleIntervals scale).length : ℤ)) : ℚ) + 1 := by
        push_cast
        rw [add_div, div_self]
        exact_mod_cast hLpos.ne'
      rw [hq, Int.floor_add_one]
    have htmod : (d + ((scaleIntervals scale).length : ℤ)).tmod
          ((scaleIntervals scale).length : ℤ)
        = d.tmod ((scaleIntervals scale).length : ℤ) := by
      rw [Int.tmod_eq_emod (by omega) (by omega), Int.tmod_eq_emod hd (by omega)]
      have hme := Int.add_mul_emod_self_left (a := d)
        (b := ((scaleIntervals scale).length : ℤ)) (c := 1)
      rwa [mul_one] at hme
    have hmodnn : 0 ≤ d.tmod ((scaleIntervals scale).length : ℤ) := by
      rw [Int.tmod_eq_emod hd (by omega)]
      exact Int.emod_nonneg d (by omega)
    rw [hfloor, htmod, if_neg (not_lt.mpr hmodnn)]
    generalize ⌊(d : ℚ) / ((((scaleIntervals scale).length : ℤ)) : ℚ)⌋ = X
    generalize (scaleIntervals scale).getD
      (d.tmod ((scaleIntervals scale).length : ℤ)).toNat 0 = S
    generalize (octave + 1) * 12 + noteIndex root = R
    have hcast : ((R + (X + 1) * 12 + S - 69 : ℤ) : ℝ) / 12
        = ((R + X * 12 + S - 69 : ℤ) : ℝ) / 12 + 1 := by
      push_cast
      ring
    rw [hcast, Real.rpow_add (by norm_num : (0 : ℝ) < 2), Real.rpow_one]
    ring
  · intro root octave n rand hn
    simp only [getFrequencyFromScale, gt_iff_lt, lt_self_iff_false, if_false,
      eq_self_iff_true, if_true]
    have h1 : ((n.natAbs + 1 : ℕ) : ℝ) = (n : ℝ) + 1 := by
      have h2 : ((n.natAbs + 1 : ℕ) : ℤ) = n + 1 := by omega
      calc ((n.natAbs + 1 : ℕ) : ℝ)
          = (((n.natAbs + 1 : ℕ) : ℤ) : ℝ) := (Int.cast_natCast _).symm
        _ = ((n + 1 : ℤ) : ℝ) := by rw [h2]
        _ = (n : ℝ) + 1 := by push_cast; ring
    rw [h1]
    norm_num
    ring

/-- Witness for C2 in C major at degree 0. -/
theorem scale_octave_equivalence_witness :
    MusicalScale.major ≠ MusicalScale.harmonics ∧ (0 : ℤ) ≤ 0 ∧
    getFrequencyFromScale RootKey.C MusicalScale.major 4
        (0 + ((scaleIntervals MusicalScale.major).length : ℤ)) 0 0
      = 2 * getFrequencyFromScale RootKey.C MusicalScale.major 4 0 0 0 :=
  ⟨by decide, by decide,
   scale_octave_equivalence.1 RootKey.C MusicalScale.major 4 0 0 (by decide) (by decide)⟩

theorem Vec.dot_normalize_self (v : Vec) (hv : ¬(v.x = 0 ∧ v.y = 0)) :
    Vec.dot (Vec.normalize v) (Vec.normalize v) = 1 := by
  have hsq : 0 < v.x * v.x + v.y * v.y := by
    rcases not_and_or.mp hv with h | h
    · nlinarith [mul_self_pos.mpr h, mul_self_nonneg v.y]
    · nlinarith [mul_self_pos.mpr h, mul_self_nonneg v.x]
  have hmagpos : 0 < Vec.mag v := Real.sqrt_pos.mpr hsq
  have hmag : Vec.mag v ≠ 0 := hmagpos.ne'
  rw [Vec.normalize, if_neg hmag]
  show v.x / Vec.mag v * (v.x / Vec.mag v) + v.y / Vec.mag v * (v.y / Vec.mag v) = 1
  have hexp : v.x / Vec.mag v * (v.x / Vec.mag v) + v.y / Vec.mag v * (v.y / Vec.mag v)
      = (v.x * v.x + v.y * v.y) / (Vec.mag v * Vec.mag v) := by
    ring
  rw [hexp, Vec.mag, Real.mul_self_sqrt hsq.le, div_self hsq.ne']

theorem resolve_dot_aux (pos p1 n : Vec) (r : ℝ) (hnn : Vec.dot n n = 1) :
    Vec.dot (Vec.sub (Vec.add pos (Vec.mult n (r - Vec.dot (Vec.sub pos p1) n))) p1) n
      = r := by
  simp only [Vec.dot, Vec.sub, Vec.add, Vec.mult] at *
  linear_combination (r - ((pos.x - p1.x) * n.x + (pos.y - p1.y) * n.y)) * hnn

theorem reflect_dot_aux (vel n : Vec) (rest vDotN : ℝ) (hnn : Vec.dot n n = 1)
    (hvd : Vec.dot vel n = vDotN) :
    Vec.dot (Vec.mult (Vec.sub vel (Vec.mult n (2 * vDotN))) rest) n = -rest * vDotN := by
  simp only [Vec.dot, Vec.sub, Vec.mult] at *
  linear_combination (-2 * rest * vDotN) * hnn + rest * hvd

/-- Claim C4: for a ball whose signed distance to a (nondegenerate)
boundary edge is below its radius, the wall-collision step repositions it
to signed distance exactly the radius, and when the ball was moving into
the wall the outgoing velocity's normal component is `-restitution`
times the incoming one. -/
theorem collision_resolution (conf : SimulationConfig) (settings : Settings)
    (volume width height perfNow : ℝ) (ienv : ImpactEnv) (p1 p2 : Vec) (i : ℕ)
    (b : Ball) (w : World)
    (hedge : ¬((Vec.sub p2 p1).x = 0 ∧ (Vec.sub p2 p1).y = 0))
    (hpen : Vec.dot (Vec.sub b.pos p1)
        (Vec.normalize ⟨-(Vec.sub p2 p1).y, (Vec.sub p2 p1).x⟩) < b.radius) :
    Vec.dot (Vec.sub (collideBallEdge conf settings volume width height perfNow
          ienv p1 p2 i b w).1.pos p1)
        (Vec.normalize ⟨-(Vec.sub p2 p1).y, (Vec.sub p2 p1).x⟩) = b.radius ∧
    (Vec.dot b.vel (Vec.normalize ⟨-(Vec.sub p2 p1).y, (Vec.sub p2 p1).x⟩) < 0 →
      Vec.dot (collideBallEdge conf settings volume width height perfNow
            ienv p1 p2 i b w).1.vel
          (Vec.normalize ⟨-(Vec.sub p2 p1).y, (Vec.sub p2 p1).x⟩)
        = -conf.restitution *
            Vec.dot b.vel (Vec.normalize ⟨-(Vec.sub p2 p1).y, (Vec.sub p2 p1).x⟩)) := by
  set n := Vec.normalize ⟨-(Vec.sub p2 p1).y, (Vec.sub p2 p1).x⟩ with hn
  have hperp : ¬((⟨-(Vec.sub p2 p1).y, (Vec.sub p2 p1).x⟩ : Vec).x = 0 ∧
      (⟨-(Vec.sub p2 p1).y, (Vec.sub p2 p1).x⟩ : Vec).y = 0) := by
    simp only
    intro hc
    exact hedge ⟨hc.2, by linarith [neg_eq_zero.mp hc.1]⟩
  have hnn : Vec.dot n n = 1 := Vec.dot_normalize_self _ hperp
  simp only [collideBallEdge]
  rw [if_pos hpen, ← hn]
  by_cases hv : Vec.dot b.vel n < 0
  · rw [if_pos hv]
    by_cases hdb : (match b.lastImpactTime with
      | none => True
      | some t => t = 0 ∨ perfNow - t > 80)
    · rw [if_pos hdb]
      constructor
      · exact resolve_dot_aux b.pos p1 n b.radius hnn
      · intro _
        exact reflect_dot_aux b.vel n conf.restitution (Vec.dot b.vel n) hnn rfl
    · rw [if_neg hdb]
      constructor
      · exact resolve_dot_aux b.pos p1 n b.radius hnn
      · intro _
        exact reflect_dot_aux b.vel n conf.restitution (Vec.dot b.vel n) hnn rfl
  · rw [if_neg hv]
    constructor
    · exact resolve_dot_aux b.pos p1 n b.radius hnn
    · intro h
      exact absurd h hv

/-- Witness for C4: a ball of radius 1 at `(-1/2, 0)` against the edge
from `(0, 0)` to `(0, 1)` (inward normal `(-1, 0)`). -/
theorem collision_resolution_witness :
    ¬((Vec.sub ⟨0, 1⟩ ⟨0, 0⟩).x = 0 ∧ (Vec.sub ⟨0, 1⟩ ⟨0, 0⟩).y = 0) ∧
    Vec.dot (Vec.sub probeBall.pos ⟨0, 0⟩)
        (Vec.normalize ⟨-(Vec.sub ⟨0, 1⟩ ⟨0, 0⟩).y, (Vec.sub ⟨0, 1⟩ ⟨0, 0⟩).x⟩) <
      probeBall.radius ∧
    (Vec.dot (Vec.sub (collideBallEdge tenseProbeConfig probeSettings 1 100 100 0
          probeImpactEnv ⟨0, 0⟩ ⟨0, 1⟩ 0 probeBall probeWorld).1.pos ⟨0, 0⟩)
        (Vec.normalize ⟨-(Vec.sub ⟨0, 1⟩ ⟨0, 0⟩).y, (Vec.sub ⟨0, 1⟩ ⟨0, 0⟩).x⟩)
      = probeBall.radius ∧
    (Vec.dot probeBall.vel
        (Vec.normalize ⟨-(Vec.sub ⟨0, 1⟩ ⟨0, 0⟩).y, (Vec.sub ⟨0, 1⟩ ⟨0, 0⟩).x⟩) < 0 →
      Vec.dot (collideBallEdge tenseProbeConfig probeSettings 1 100 100 0
            probeImpactEnv ⟨0, 0⟩ ⟨0, 1⟩ 0 probeBall probeWorld).1.vel
          (Vec.normalize ⟨-(Vec.sub ⟨0, 1⟩ ⟨0, 0⟩).y, (Vec.sub ⟨0, 1⟩ ⟨0, 0⟩).x⟩)
        = -tenseProbeConfig.restitution *
            Vec.dot probeBall.vel
              (Vec.normalize ⟨-(Vec.sub ⟨0, 1⟩ ⟨0, 0⟩).y, (Vec.sub ⟨0, 1⟩ ⟨0, 0⟩).x⟩))) := by
  have hperp : (⟨-(Vec.sub ⟨0, 1⟩ ⟨0, 0⟩).y, (Vec.sub ⟨0, 1⟩ ⟨0, 0⟩).x⟩ : Vec)
      = ⟨-1, 0⟩ := by
    simp [Vec.sub]
  have hmag1 : Vec.mag ⟨-1, 0⟩ = 1 := by
    rw [Vec.mag]
    norm_num
  have hnorm : Vec.normalize ⟨-(Vec.sub ⟨0, 1⟩ ⟨0, 0⟩).y, (Vec.sub ⟨0, 1⟩ ⟨0, 0⟩).x⟩
      = ⟨-1, 0⟩ := by
    rw [hperp, Vec.normalize, if_neg (by rw [hmag1]; norm_num), hmag1]
    norm_num
  have hedge : ¬((Vec.sub ⟨0, 1⟩ ⟨0, 0⟩).x = 0 ∧ (Vec.sub ⟨0, 1⟩ ⟨0, 0⟩).y = 0) := by
    simp [Vec.sub]
  have hpen : Vec.dot (Vec.sub probeBall.pos ⟨0, 0⟩)
      (Vec.normalize ⟨-(Vec.sub ⟨0, 1⟩ ⟨0, 0⟩).y, (Vec.sub ⟨0, 1⟩ ⟨0, 0⟩).x⟩) <
      probeBall.radius := by
    rw [hnorm]
    norm_num [Vec.dot, Vec.sub, probeBall]
  exact ⟨hedge, hpen,
    collision_resolution tenseProbeConfig probeSettings 1 100 100 0 probeImpactEnv
      ⟨0, 0⟩ ⟨0, 1⟩ 0 probeBall probeWorld hedge hpen⟩

/-- Claim C6: with time scale 0, one physics tick only decays the visual
marks (life minus 0.05, removal at 0 or below): every ball, boid and the
audio engine are bit-for-bit unchanged and no new impacts are emitted,
and the freeze persists across arbitrarily many repeated ticks. -/
theorem timescale_zero_freeze :
    (∀ (env : TickEnv) (conf : SimulationConfig) (settings : Settings)
        (volume width height : ℝ) (w : World),
        settings.timeScale = 0 →
        updatePhysics env conf settings volume width height w =
          { w with impacts :=
              ((w.impacts.map (fun i => { i with life := i.life - 0.05 })).filter
                (fun i => decide (0 < i.life))) }) ∧
    (∀ (env : TickEnv) (conf : SimulationConfig) (settings : Settings)
        (volume width height : ℝ) (w : World),
        settings.timeScale = 0 → ∀ (k : ℕ),
        ((fun w0 => updatePhysics env conf settings volume width height w0)^[k] w).balls
            = w.balls ∧
        ((fun w0 => updatePhysics env conf settings volume width height w0)^[k] w).boids
            = w.boids ∧
        ((fun w0 => updatePhysics env conf settings volume width height w0)^[k] w).audio
            = w.audio) := by
  have hone : ∀ (env : TickEnv) (conf : SimulationConfig) (settings : Settings)
      (volume width height : ℝ) (w : World), settings.timeScale = 0 →
      updatePhysics env conf settings volume width height w =
        { w with impacts := decayImpacts w.impacts } := by
    intro env conf settings volume width height w hts
    simp only [updatePhysics]
    rw [if_pos hts]
  constructor
  · intro env conf settings volume width height w hts
    rw [hone env conf settings volume width height w hts]
    rfl
  · intro env conf settings volume width height w hts k
    induction k with
    | zero => exact ⟨rfl, rfl, rfl⟩
    | succ m ih =>
      rw [Function.iterate_succ_apply',
        hone env conf settings volume width height _ hts]
      exact ih

/-- Witness for C6 on the probe world (one mark, paused settings). -/
theorem timescale_zero_freeze_witness :
    pausedProbeSettings.timeScale = 0 ∧
    updatePhysics probeTickEnv tenseProbeConfig pausedProbeSettings 1 100 100 probeWorld =
      { probeWorld with impacts :=
          ((probeWorld.impacts.map (fun i => { i with life := i.life - 0.05 })).filter
            (fun i => decide (0 < i.life))) } :=
  ⟨rfl, timescale_zero_freeze.1 probeTickEnv tenseProbeConfig pausedProbeSettings
    1 100 100 probeWorld rfl⟩

/-- Claim C5, counterexample: with chaos mode on and the Lorenz state at
its class-default initial value, one chaos iteration leaves the
delay-feedback gain at its prior value 0.4 even though the normalized `y`
component differs from it — `setGlobalDelayFeedback` has an empty body
and updates no audio parameter. -/
theorem chaos_modulation_cex :
    (updateChaos true true ⟨1 / 10, 0, 0⟩ probeAudio).2.delayFeedbackGain
        = probeAudio.delayFeedbackGain ∧
    probeAudio.delayFeedbackGain = 4 / 10 ∧
    max 0.1 (min 0.8 (((lorenzUpdate ⟨1 / 10, 0, 0⟩).y + 30) / 60)) ≠ 4 / 10 := by
  refine ⟨?_, rfl, ?_⟩
  · simp [updateChaos, AudioEngine.setGlobalFilter, AudioEngine.setGlobalDelayFeedback]
  · have hy : (lorenzUpdate ⟨1 / 10, 0, 0⟩).y = 7 / 500 := by
      simp [lorenzUpdate]
      norm_num
    rw [hy, show ((7 : ℝ) / 500 + 30) / 60 = 15007 / 30000 by norm_num,
      min_eq_right (by norm_num), max_eq_right (by norm_num)]
    norm_num

/-- Claim C5 (amended): each chaos iteration (chaos mode on, engine
started) advances the Lorenz state and applies the normalized `x` to the
master filter cutoff target through `setGlobalFilter`; the normalized `y`
is passed to `setGlobalDelayFeedback`, which is an empty-bodied no-op, so
the delay-feedback gain is left unchanged. -/
theorem chaos_modulation_amended :
    ∀ (chaos : LorenzState) (s : AudioState) (en st : Bool),
      en = true → st = true →
      (updateChaos en st chaos s).1 = lorenzUpdate chaos ∧
      (updateChaos en st chaos s).2.masterFilterFreq =
        max 20 (min 22000 (Real.exp (Real.log 40 +
          (max 0.1 (min 1.0 (((lorenzUpdate chaos).x + 20) / 40))) *
            (Real.log 20000 - Real.log 40)))) ∧
      (updateChaos en st chaos s).2.delayFeedbackGain = s.delayFeedbackGain := by
  intro chaos s en st hen hst
  subst hen hst
  refine ⟨?_, ?_, ?_⟩ <;>
    simp [updateChaos, AudioEngine.setGlobalFilter, AudioEngine.setGlobalDelayFeedback]

/-- Witness for the amended C5 at the initial Lorenz state. -/
theorem chaos_modulation_amended_witness :
    (true = true) ∧ (true = true) ∧
    ((updateChaos true true ⟨1 / 10, 0, 0⟩ probeAudio).1 = lorenzUpdate ⟨1 / 10, 0, 0⟩ ∧
     (updateChaos true true ⟨1 / 10, 0, 0⟩ probeAudio).2.masterFilterFreq =
       max 20 (min 22000 (Real.exp (Real.log 40 +
         (max 0.1 (min 1.0 (((lorenzUpdate ⟨1 / 10, 0, 0⟩).x + 20) / 40))) *
           (Real.log 20000 - Real.log 40)))) ∧
     (updateChaos true true ⟨1 / 10, 0, 0⟩ probeAudio).2.delayFeedbackGain =
       probeAudio.delayFeedbackGain) :=
  ⟨rfl, rfl, chaos_modulation_amended ⟨1 / 10, 0, 0⟩ probeAudio true true rfl rfl⟩

theorem handleImpact_impacts (conf : SimulationConfig) (settings : Settings)
    (volume : ℝ) (env : ImpactEnv) (pos : Vec) (speed : ℝ) (wallIndex : ℕ)
    (width height : ℝ) (kind : ImpactKind) (w : World) :
    (handleImpact conf settings volume env pos speed wallIndex width height kind w).impacts
      = w.impacts ++
        [{ pos := pos
           life := 1
           radius := if kind = ImpactKind.ball then 5 + speed * 1.5 else 3
           isGhost := if env.probRand ≤ ((conf.instrument.probability.getD 1 : ℚ) : ℝ)
             then false else true }] := by
  simp only [handleImpact]
  split_ifs <;> rfl

/-- Claim C7, counterexample: with trigger probability 0 and the uniform
sample exactly 0 (a value `Math.random()` can return, since the gate
tests `sample <= probability`), the event is NOT suppressed: the pushed
mark is not a ghost and a synth voice is allocated (the active-voice
counter rises from 0 to 1), contradicting "with probability 0 every
trigger attempt is suppressed and yields no voice". -/
theorem probability_gate_cex :
    zeroProbProbeConfig.instrument.probability = some 0 ∧
    probeImpactEnv.probRand = 0 ∧
    (handleImpact zeroProbProbeConfig probeSettings 1 probeImpactEnv ⟨0, 0⟩ 1 0 100 100
        ImpactKind.ball probeWorld).audio.activeVoices = 1 ∧
    ((handleImpact zeroProbProbeConfig probeSettings 1 probeImpactEnv ⟨0, 0⟩ 1 0 100 100
        ImpactKind.ball probeWorld).impacts.map Impact.isGhost) = [false, false] := by
  refine ⟨rfl, rfl, ?_, ?_⟩
  · simp [handleImpact, probeSettings, zeroProbProbeConfig, tenseProbeConfig,
      probeImpactEnv, probeWorld, probeAudio, AudioEngine.trigger,
      AudioEngine.triggerSynth, MAX_POLYPHONY]
  · rw [handleImpact_impacts]
    simp [probeWorld, probeImpactEnv, zeroProbProbeConfig, tenseProbeConfig]

/-- Claim C7 (amended): the gate suppresses an impact (ghost mark only,
nothing else changes, no voice) exactly when the sample exceeds the
probability; with probability 0 every attempt whose sample is positive is
suppressed (a sample of exactly 0 passes the gate); with probability 1 no
attempt is suppressed (samples lie below 1), and a ball-type attempt
while playing at nonzero volume on a synth-source instrument allocates a
voice exactly when the polyphony ceiling has not been reached. -/
theorem probability_gate_amended :
    ∀ (conf : SimulationConfig) (settings : Settings) (volume : ℝ) (env : ImpactEnv)
      (pos : Vec) (speed : ℝ) (wallIndex : ℕ) (width height : ℝ) (kind : ImpactKind)
      (w : World),
      (env.probRand > ((conf.instrument.probability.getD 1 : ℚ) : ℝ) →
        handleImpact conf settings volume env pos speed wallIndex width height kind w =
          { w with impacts := w.impacts ++
              [{ pos := pos
                 life := 1
                 radius := if kind = ImpactKind.ball then 5 + speed * 1.5 else 3
                 isGhost := true }] }) ∧
      (conf.instrument.probability = some 0 → 0 < env.probRand →
        handleImpact conf settings volume env pos speed wallIndex width height kind w =
          { w with impacts := w.impacts ++
              [{ pos := pos
                 life := 1
                 radius := if kind = ImpactKind.ball then 5 + speed * 1.5 else 3
                 isGhost := true }] }) ∧
      (conf.instrument.probability = some 1 → env.probRand ≤ 1 →
        (handleImpact conf settings volume env pos speed wallIndex width height
            kind w).impacts
          = w.impacts ++
            [{ pos := pos
               life := 1
               radius := if kind = ImpactKind.ball then 5 + speed * 1.5 else 3
               isGhost := false }]) ∧
      (conf.instrument.probability = some 1 → env.probRand ≤ 1 →
        settings.isPlaying = true → 0 < volume → kind = ImpactKind.ball →
        conf.instrument.sourceType = some SourceType.synth →
        (handleImpact conf settings volume env pos speed wallIndex width height
            kind w).audio.activeVoices
          = if MAX_POLYPHONY ≤ w.audio.activeVoices then w.audio.activeVoices
            else w.audio.activeVoices + 1) := by
  intro conf settings volume env pos speed wallIndex width height kind w
  refine ⟨?_, ?_, ?_, ?_⟩
  · intro h
    have hns : ¬(env.probRand ≤ ((conf.instrument.probability.getD 1 : ℚ) : ℝ)) :=
      not_le.mpr h
    simp [handleImpact, hns]
  · intro h0 hpos
    have hns : ¬(env.probRand ≤ ((conf.instrument.probability.getD 1 : ℚ) : ℝ)) := by
      rw [h0, Option.getD_some, Rat.cast_zero]
      linarith
    simp [handleImpact, hns]
  · intro h1 hle
    have hs : env.probRand ≤ ((conf.instrument.probability.getD 1 : ℚ) : ℝ) := by
      rw [h1, Option.getD_some, Rat.cast_one]
      exact hle
    rw [handleImpact_impacts]
    simp [hs]
  · intro h1 hle hplay hvol hkind hsrc
    subst hkind
    have hs : env.probRand ≤ ((conf.instrument.probability.getD 1 : ℚ) : ℝ) := by
      rw [h1, Option.getD_some, Rat.cast_one]
      exact hle
    simp [handleImpact, hs, hplay, hvol, hsrc, AudioEngine.trigger,
      AudioEngine.triggerSynth, AudioEngine.triggerPhysical, AudioEngine.triggerSample,
      AudioEngine.triggerGranular]
    split_ifs <;> rfl

/-- Witness for the amended C7: a sample of 0.9 against probability 0.3
is suppressed into a ghost mark with no other state change. -/
theorem probability_gate_amended_witness :
    ({ probRand := 9 / 10, degreeRand := 0, driftRand := 0 } : ImpactEnv).probRand >
      ((tenseProbeConfig.instrument.probability.getD 1 : ℚ) : ℝ) ∧
    handleImpact tenseProbeConfig probeSettings 1
        ({ probRand := 9 / 10, degreeRand := 0, driftRand := 0 } : ImpactEnv)
        ⟨0, 0⟩ 1 0 100 100 ImpactKind.ball probeWorld =
      { probeWorld with impacts := probeWorld.impacts ++
          [{ pos := ⟨0, 0⟩
             life := 1
             radius := if ImpactKind.ball = ImpactKind.ball then 5 + 1 * 1.5 else 3
             isGhost := true }] } := by
  have h : ({ probRand := 9 / 10, degreeRand := 0, driftRand := 0 } : ImpactEnv).probRand >
      ((tenseProbeConfig.instrument.probability.getD 1 : ℚ) : ℝ) := by
    norm_num [tenseProbeConfig]
  exact ⟨h, (probability_gate_amended tenseProbeConfig probeSettings 1
    ({ probRand := 9 / 10, degreeRand := 0, driftRand := 0 } : ImpactEnv)
    ⟨0, 0⟩ 1 0 100 100 ImpactKind.ball probeWorld).1 h⟩

end KineticSoundscapes
